import Mathlib

/-!
Shallow embedding of `sgpt.py` (shell_gpt), the prompt-mode request
pipeline: credential resolution (`get_api_key`), prompt composition
(the shell/code templates and `get_edited_prompt`), the request
(`openai_request`), rendering (`typer_writer`) and the execution gate,
sequenced by `main`.

Side effects are modelled as an explicit trace of `Event`s; external
collaborators (file system, getpass, $EDITOR, the upstream service,
the confirmation prompt, platform detection) are inputs in `Env`.
-/

namespace Sgpt

/-- Observable side effects of one run, in order of occurrence. -/
inductive Event where
  | getpassPrompt : Event
  | writeKeyFile : String → Event
  | readKeyFile : Event
  | runSystem : String → Event
  | httpPost : String → String → String → Event
  | secho : String → Bool → Option String → Bool → Event
  | echo : String → Event
  | confirmAsk : Event
deriving DecidableEq

/-- Errors `main` can raise: click's MissingParameter (no PROMPT) and
BadParameter (editor produced no content). -/
inductive SgptError where
  | missingParameter : SgptError
  | badParameter : SgptError
deriving DecidableEq

/-- State of the key file `~/.config/shell-gpt/api_key.txt`:
`none` when the file does not exist. -/
structure FsState where
  keyFile : Option String
deriving DecidableEq

/-- External collaborators of one invocation. -/
structure Env where
  fs : FsState
  getpassResult : String
  editorEnv : Option String
  tempPath : String
  editorOutput : String
  platformSystem : String
  upstreamResponse : String
  confirmResult : Bool

/-- Validated CLI options of one invocation (`main`'s parameters).
`prompt` is `none` when the positional argument is absent. -/
structure Options where
  prompt : Option String
  model : String
  shell : Bool
  execute : Bool
  code : Bool
  editor : Bool
  animation : Bool
  spinner : Bool

/-- Whitespace characters removed by Python's str.strip(). -/
def pySpace (c : Char) : Bool :=
  c = ' ' || c = '\t' || c = '\n' || c = '\r' || c = '\x0b' || c = '\x0c'

/-- Drop leading whitespace characters. -/
def dropSpaces : List Char → List Char
  | [] => []
  | c :: cs => if pySpace c then dropSpaces cs else c :: cs

/-- Python str.strip(): remove leading and trailing whitespace. -/
def pyStrip (s : String) : String :=
  ⟨List.reverse (dropSpaces (List.reverse (dropSpaces s.toList)))⟩

/-- Python truthiness of the `prompt` argument: `not prompt` is true
for `None` and for the empty string. -/
def pyFalsy : Option String → Bool
  | none => true
  | some s => s.isEmpty

/-- Python str() of the optional prompt as interpolated by f-strings. -/
def pyStr : Option String → String
  | none => "None"
  | some s => s

/-- get_api_key: read and trim the key file when it exists; otherwise
prompt via getpass, create the file and persist the entered value
verbatim. Returns the key, the resulting file state and the trace. -/
def get_api_key (fs : FsState) (getpassResult : String) :
    String × FsState × List Event :=
  match fs.keyFile with
  | some contents => (pyStrip contents, fs, [Event.readKeyFile])
  | none =>
      (getpassResult, ⟨some getpassResult⟩,
        [Event.getpassPrompt, Event.writeKeyFile getpassResult])

/-- The command line `os.system` runs to launch the editor:
`$EDITOR` (default "vim") followed by the temp file path. -/
def editorCmd (env : Env) : String :=
  (env.editorEnv.getD "vim") ++ " " ++ env.tempPath

/-- get_edited_prompt: launch the editor on a temp file, read it back,
and fail with BadParameter when the content is falsy (exactly empty). -/
def get_edited_prompt (env : Env) : List Event × Except SgptError String :=
  ([Event.runSystem (editorCmd env)],
    if env.editorOutput = "" then Except.error SgptError.badParameter
    else Except.ok env.editorOutput)

/-- platform.system() dispatch of main: "PowerShell" on Windows,
"Bash" otherwise. -/
def currentShell (sys : String) : String :=
  if sys = "Windows" then "PowerShell" else "Bash"

/-- The shell-mode f-string template of main (lines 130-134). -/
def shellTemplate (cs p : String) : String :=
  "\n        Context: Provide only " ++ cs ++ " command as output.\n        Prompt: "
    ++ p ++ "\n        Command:\n        "

/-- The code-mode f-string template of main (lines 136-140). -/
def codeTemplate (p : String) : String :=
  "\n        Context: Provide only code as output.\n        Prompt: "
    ++ p ++ "\n        Code:\n        "

/-- The if/elif templating step of main: shell template when `--shell`,
else code template when `--code`, else the prompt unchanged. -/
def composeTemplate (opts : Options) (env : Env) : String :=
  if opts.shell then shellTemplate (currentShell env.platformSystem) (pyStr opts.prompt)
  else if opts.code then codeTemplate (pyStr opts.prompt)
  else pyStr opts.prompt

/-- openai_request: one POST carrying the model identifier, the prompt
as the user message, and the bearer credential; returns the first
choice's message content supplied by the environment. -/
def openai_request (env : Env) (prompt model api_key : String) :
    String × List Event :=
  (env.upstreamResponse, [Event.httpPost model prompt api_key])

/-- typer_writer: character-paced animated write when `animate` and not
shell-or-code, otherwise a single (possibly colored, bold) write. -/
def typer_writer (text : String) (code shell animate : Bool) : List Event :=
  let shell_or_code := shell || code
  let color : Option String := if shell_or_code then some "magenta" else none
  if animate && !shell_or_code then
    text.toList.map (fun c => Event.secho (String.singleton c) false color shell_or_code)
      ++ [Event.echo ""]
  else
    [Event.secho text true color shell_or_code]

/-- The response text after `.strip()`. -/
def respText (env : Env) : String := pyStrip env.upstreamResponse

/-- The execution gate of main: `if shell and execute and
typer.confirm(...): os.system(response_text)`. -/
def gateEvents (opts : Options) (env : Env) : List Event :=
  if opts.shell && opts.execute then
    if env.confirmResult then
      [Event.confirmAsk, Event.runSystem (respText env)]
    else [Event.confirmAsk]
  else []

/-- Outcome of one invocation: its trace and its terminal result. -/
structure RunResult where
  events : List Event
  outcome : Except SgptError Unit

/-- The tail of main after the prompt is settled: request, strip,
render, and the execution gate. -/
def finishRun (opts : Options) (env : Env) (api_key mdl prmpt : String)
    (evs : List Event) : RunResult :=
  let req := openai_request env prmpt mdl api_key
  ⟨evs ++ req.2
      ++ typer_writer (respText env) opts.code opts.shell opts.animation
      ++ gateEvents opts env,
    Except.ok ()⟩

/-- main: resolve the credential, validate the prompt parameter, apply
the mode template, hardcode the model, let the editor replace the
prompt, request, render, and maybe execute. -/
def main (opts : Options) (env : Env) : RunResult :=
  let keyRes := get_api_key env.fs env.getpassResult
  if pyFalsy opts.prompt && !opts.editor then
    ⟨keyRes.2.2, Except.error SgptError.missingParameter⟩
  else
    let prompt1 := composeTemplate opts env
    let mdl := "gpt-3.5-turbo"
    if opts.editor then
      let ed := get_edited_prompt env
      match ed.2 with
      | Except.error e => ⟨keyRes.2.2 ++ ed.1, Except.error e⟩
      | Except.ok p2 => finishRun opts env keyRes.1 mdl p2 (keyRes.2.2 ++ ed.1)
    else
      finishRun opts env keyRes.1 mdl prompt1 keyRes.2.2

/-- `hay` contains `needle` as a literal substring. -/
def containsStr (hay needle : String) : Prop :=
  ∃ x y, hay = x ++ needle ++ y

/-- Shorthand for the credential-resolution step of `main`. -/
def keyStep (env : Env) : String × FsState × List Event :=
  get_api_key env.fs env.getpassResult

/-- A sample environment: key file holding "KEY", Linux host, $EDITOR
unset, upstream answering "  ls -la  ", confirmation declined. -/
def envA : Env :=
  { fs := ⟨some "KEY"⟩, getpassResult := "", editorEnv := none,
    tempPath := "/tmp/t.txt", editorOutput := "ls", platformSystem := "Linux",
    upstreamResponse := "  ls -la  ", confirmResult := false }

/-- Sample options: plain mode with prompt "hi", all flags off. -/
def optsPlain : Options :=
  { prompt := some "hi", model := "gpt_turbo", shell := false, execute := false,
    code := false, editor := false, animation := false, spinner := true }

/-! Helper lemmas about the traces of the individual steps. -/

/-- Top-level case analysis of `main`. -/
lemma main_eq (opts : Options) (env : Env) :
    main opts env =
      if pyFalsy opts.prompt && !opts.editor then
        ⟨(keyStep env).2.2, Except.error SgptError.missingParameter⟩
      else if opts.editor then
        if env.editorOutput = "" then
          ⟨(keyStep env).2.2 ++ [Event.runSystem (editorCmd env)],
            Except.error SgptError.badParameter⟩
        else
          finishRun opts env (keyStep env).1 "gpt-3.5-turbo"
            env.editorOutput ((keyStep env).2.2 ++ [Event.runSystem (editorCmd env)])
      else
        finishRun opts env (keyStep env).1 "gpt-3.5-turbo"
          (composeTemplate opts env) (keyStep env).2.2 := by
  unfold main get_edited_prompt keyStep
  split
  · rfl
  · split
    · by_cases hemp : env.editorOutput = "" <;> simp [hemp]
    · rfl

lemma keyEvents_httpPost (fs : FsState) (g m p k : String) :
    Event.httpPost m p k ∉ (get_api_key fs g).2.2 := by
  rcases fs with ⟨_ | c⟩ <;> simp [get_api_key]

lemma keyEvents_runSystem (fs : FsState) (g c : String) :
    Event.runSystem c ∉ (get_api_key fs g).2.2 := by
  rcases fs with ⟨_ | c⟩ <;> simp [get_api_key]

lemma writer_httpPost (t : String) (c s a : Bool) (m p k : String) :
    Event.httpPost m p k ∉ typer_writer t c s a := by
  simp only [typer_writer]
  split <;> simp

lemma writer_runSystem (t : String) (cd s a : Bool) (c : String) :
    Event.runSystem c ∉ typer_writer t cd s a := by
  simp only [typer_writer]
  split <;> simp

lemma gate_httpPost (opts : Options) (env : Env) (m p k : String) :
    Event.httpPost m p k ∉ gateEvents opts env := by
  unfold gateEvents
  split
  · split <;> simp
  · simp

lemma gate_runSystem (opts : Options) (env : Env) (c : String)
    (h : Event.runSystem c ∈ gateEvents opts env) :
    opts.shell = true ∧ opts.execute = true ∧ env.confirmResult = true ∧
      c = respText env := by
  unfold gateEvents at h
  by_cases hse : (opts.shell && opts.execute) = true
  · rw [if_pos hse] at h
    by_cases hc : env.confirmResult = true
    · rw [if_pos hc] at h
      simp at h
      have hse' := hse
      simp only [Bool.and_eq_true] at hse'
      exact ⟨hse'.1, hse'.2, hc, h⟩
    · rw [if_neg hc] at h
      simp at h
  · rw [if_neg hse] at h
    simp at h

lemma finishRun_httpPost (opts : Options) (env : Env) (key mdl prmpt : String)
    (evs : List Event) (m p k : String)
    (h : Event.httpPost m p k ∈ (finishRun opts env key mdl prmpt evs).events) :
    Event.httpPost m p k ∈ evs ∨ (m = mdl ∧ p = prmpt ∧ k = key) := by
  unfold finishRun openai_request at h
  simp only [List.mem_append, List.mem_singleton] at h
  rcases h with ((h | h) | h) | h
  · exact Or.inl h
  · rcases h with ⟨rfl, rfl, rfl⟩
    · exact Or.inr ⟨rfl, rfl, rfl⟩
  · exact absurd h (writer_httpPost _ _ _ _ _ _ _)
  · exact absurd h (gate_httpPost _ _ _ _ _)

lemma finishRun_runSystem (opts : Options) (env : Env) (key mdl prmpt : String)
    (evs : List Event) (c : String)
    (h : Event.runSystem c ∈ (finishRun opts env key mdl prmpt evs).events) :
    Event.runSystem c ∈ evs ∨ Event.runSystem c ∈ gateEvents opts env := by
  unfold finishRun openai_request at h
  simp only [List.mem_append, List.mem_singleton] at h
  rcases h with ((h | h) | h) | h
  · exact Or.inl h
  · exact absurd h (by simp)
  · exact absurd h (writer_runSystem _ _ _ _ _)
  · exact Or.inr h

lemma main_httpPost_mem (opts : Options) (env : Env) (m p k : String)
    (h : Event.httpPost m p k ∈ (main opts env).events) :
    m = "gpt-3.5-turbo" ∧ k = (keyStep env).1 ∧
      ((opts.editor = true ∧ p = env.editorOutput) ∨
        (opts.editor = false ∧ p = composeTemplate opts env)) := by
  rw [main_eq] at h
  split at h
  · exact absurd h (keyEvents_httpPost _ _ _ _ _)
  · split at h
    · rename_i he
      split at h
      · simp only [List.mem_append, List.mem_singleton] at h
        rcases h with h | h
        · exact absurd h (keyEvents_httpPost _ _ _ _ _)
        · exact absurd h (by simp)
      · rcases finishRun_httpPost _ _ _ _ _ _ _ _ _ h with h | ⟨rfl, rfl, rfl⟩
        · simp only [List.mem_append, List.mem_singleton] at h
          rcases h with h | h
          · exact absurd h (keyEvents_httpPost _ _ _ _ _)
          · exact absurd h (by simp)
        · exact ⟨rfl, rfl, Or.inl ⟨he, rfl⟩⟩
    · rename_i he
      rcases finishRun_httpPost _ _ _ _ _ _ _ _ _ h with h | ⟨rfl, rfl, rfl⟩
      · exact absurd h (keyEvents_httpPost _ _ _ _ _)
      · exact ⟨rfl, rfl, Or.inr ⟨by simpa using he, rfl⟩⟩

lemma main_ok_of_httpPost (opts : Options) (env : Env)
    (h : ∃ m p k, Event.httpPost m p k ∈ (main opts env).events) :
    (main opts env).outcome = Except.ok () := by
  obtain ⟨m, p, k, h⟩ := h
  rw [main_eq] at h ⊢
  split at h
  · exact absurd h (keyEvents_httpPost _ _ _ _ _)
  · rename_i hv
    rw [if_neg hv]
    split at h
    · rename_i he
      rw [if_pos he]
      split at h
      · rename_i hemp
        exfalso
        simp only [List.mem_append, List.mem_singleton] at h
        rcases h with h | h
        · exact absurd h (keyEvents_httpPost _ _ _ _ _)
        · exact absurd h (by simp)
      · rename_i hemp
        rw [if_neg hemp]
        rfl
    · rename_i he
      rw [if_neg he]
      rfl

lemma containsStr_length (hay needle : String) (h : containsStr hay needle) :
    needle.length ≤ hay.length := by
  rcases h with ⟨x, y, rfl⟩
  simp [String.length_append]
  omega

/-! The claims. -/

/-- C1: every request `main` dispatches carries the model identifier
"gpt-3.5-turbo" in its body, whatever value the user supplied for the
`--model` option. -/
theorem c1_model_hardcoded (opts : Options) (env : Env) (m p k : String)
    (h : Event.httpPost m p k ∈ (main opts env).events) : m = "gpt-3.5-turbo" :=
  (main_httpPost_mem opts env m p k h).1

/-- C1 witness: a run whose options select model "text-davinci-003"
still posts "gpt-3.5-turbo". -/
theorem c1_witness :
    Event.httpPost "gpt-3.5-turbo" "hi" "KEY" ∈
        (main { optsPlain with model := "text-davinci-003" } envA).events ∧
      "gpt-3.5-turbo" = "gpt-3.5-turbo" :=
  ⟨by decide, c1_model_hardcoded { optsPlain with model := "text-davinci-003" } envA
      "gpt-3.5-turbo" "hi" "KEY" (by decide)⟩

/-- C2 counterexample: a shell-mode run in editor mode sends the edited
text "ls" upstream; it contains neither the host shell family name
"Bash" nor the raw prompt "list files", refuting the claim for
editor-mode runs. -/
theorem c2_counterexample :
    Event.httpPost "gpt-3.5-turbo" "ls" "KEY" ∈
        (main
          { optsPlain with prompt := some "list files", shell := true, editor := true }
          envA).events ∧
      currentShell envA.platformSystem = "Bash" ∧
      ¬ containsStr "ls" "Bash" ∧ ¬ containsStr "ls" "list files" := by
  refine ⟨by decide, rfl, fun h => ?_, fun h => ?_⟩
  · have := containsStr_length _ _ h
    simp [String.length] at this
  · have := containsStr_length _ _ h
    simp [String.length] at this

/-- C2 amended: in every shell-mode run that is not in editor mode, the
prompt posted upstream contains the host shell family name (PowerShell
on a Windows host, Bash otherwise) and the raw prompt text verbatim as
literal substrings; in editor-mode runs the edited text replaces the
templated prompt entirely. -/
theorem c2_shell_prompt_substrings (opts : Options) (env : Env) (m p k : String)
    (hs : opts.shell = true) (he : opts.editor = false)
    (h : Event.httpPost m p k ∈ (main opts env).events) :
    (currentShell env.platformSystem = "PowerShell" ∨
        currentShell env.platformSystem = "Bash") ∧
      containsStr p (currentShell env.platformSystem) ∧
      containsStr p (pyStr opts.prompt) := by
  obtain ⟨-, -, h3⟩ := main_httpPost_mem opts env m p k h
  rcases h3 with ⟨hee, -⟩ | ⟨-, rfl⟩
  · rw [he] at hee; cases hee
  · refine ⟨?_, ?_, ?_⟩
    · unfold currentShell
      split
      · exact Or.inl rfl
      · exact Or.inr rfl
    · rw [composeTemplate, if_pos hs]
      exact ⟨"\n        Context: Provide only ",
        " command as output.\n        Prompt: " ++ pyStr opts.prompt
          ++ "\n        Command:\n        ",
        by simp [shellTemplate, String.append_assoc]⟩
    · rw [composeTemplate, if_pos hs]
      exact ⟨"\n        Context: Provide only " ++ currentShell env.platformSystem
          ++ " command as output.\n        Prompt: ",
        "\n        Command:\n        ",
        by simp [shellTemplate, String.append_assoc]⟩

/-- C2 witness: the non-editor shell-mode run on prompt "list files"
sends a prompt containing "Bash" and "list files". -/
theorem c2_witness :
    (currentShell envA.platformSystem = "PowerShell" ∨
        currentShell envA.platformSystem = "Bash") ∧
      containsStr (shellTemplate "Bash" "list files") (currentShell envA.platformSystem) ∧
      containsStr (shellTemplate "Bash" "list files") (pyStr (some "list files")) :=
  c2_shell_prompt_substrings { optsPlain with prompt := some "list files", shell := true }
    envA "gpt-3.5-turbo" (shellTemplate "Bash" "list files") "KEY" rfl rfl (by decide)

/-- C3 counterexample: when the editor writes a lone space, the content
is empty after trimming, yet composition succeeds with " " instead of
failing as the claim requires. -/
theorem c3_counterexample :
    (get_edited_prompt { envA with editorOutput := " " }).2 = Except.ok " " ∧
      pyStrip " " = "" := ⟨rfl, rfl⟩

/-- C3 amended: editor-mode composition fails exactly when the edited
file content is the empty string (no trimming is applied); if the
editor writes "ls -la", composition succeeds and that exact text is
sent upstream as the prompt. -/
theorem c3_editor_empty_exact (env : Env) :
    ((get_edited_prompt env).2 = Except.error SgptError.badParameter ↔
        env.editorOutput = "") ∧
      (env.editorOutput = "ls -la" → (get_edited_prompt env).2 = Except.ok "ls -la") ∧
      (∀ opts : Options, opts.editor = true → env.editorOutput = "ls -la" →
        Event.httpPost "gpt-3.5-turbo" "ls -la" (keyStep env).1 ∈
          (main opts env).events) := by
  refine ⟨⟨fun h => ?_, fun h => by simp [get_edited_prompt, h]⟩,
    fun h => by simp [get_edited_prompt, h], fun opts he hout => ?_⟩
  · by_cases hemp : env.editorOutput = ""
    · exact hemp
    · simp [get_edited_prompt, hemp] at h
  · rw [main_eq]
    have hv : (pyFalsy opts.prompt && !opts.editor) = false := by
      rw [he]; simp
    rw [hv]
    simp [he, hout, finishRun, openai_request]

/-- C3 witness: with the editor writing "ls -la", composition returns
exactly "ls -la" and an editor-mode run posts it upstream. -/
theorem c3_witness :
    (get_edited_prompt { envA with editorOutput := "ls -la" }).2 = Except.ok "ls -la" ∧
      Event.httpPost "gpt-3.5-turbo" "ls -la"
          (keyStep { envA with editorOutput := "ls -la" }).1 ∈
        (main { optsPlain with editor := true }
          { envA with editorOutput := "ls -la" }).events :=
  ⟨(c3_editor_empty_exact { envA with editorOutput := "ls -la" }).2.1 rfl,
    (c3_editor_empty_exact { envA with editorOutput := "ls -la" }).2.2
      { optsPlain with editor := true } rfl rfl⟩

/-- C4 counterexample: with no key file and an empty interactive entry,
get_api_key persists the empty string to the key file and returns it,
instead of failing as the claim requires. -/
theorem c4_counterexample :
    (get_api_key ⟨none⟩ "").1 = "" ∧
      (get_api_key ⟨none⟩ "").2.1.keyFile = some "" ∧
      Event.writeKeyFile "" ∈ (get_api_key ⟨none⟩ "").2.2 :=
  ⟨rfl, rfl, by decide⟩

/-- C4 amended: when no key file exists, credential resolution never
fails: it persists the interactive entry verbatim — the empty string
included — and returns it. -/
theorem c4_empty_key_persisted (g : String) :
    (get_api_key ⟨none⟩ g).1 = g ∧
      (get_api_key ⟨none⟩ g).2.1.keyFile = some g ∧
      Event.writeKeyFile g ∈ (get_api_key ⟨none⟩ g).2.2 :=
  ⟨rfl, rfl, by simp [get_api_key]⟩

/-- C5 counterexample: in plain mode the raw prompt " hi " is forwarded
with its surrounding whitespace, not equal to its trimmed form. -/
theorem c5_counterexample :
    Event.httpPost "gpt-3.5-turbo" " hi " "KEY" ∈
        (main { optsPlain with prompt := some " hi " } envA).events ∧
      pyStrip " hi " ≠ " hi " := ⟨by decide, by decide⟩

/-- C5 amended: in every plain-mode run without editor mode, the prompt
forwarded to the completion request equals the raw input unchanged — in
particular it is not whitespace-trimmed. -/
theorem c5_plain_prompt_unchanged (opts : Options) (env : Env) (m p k : String)
    (hs : opts.shell = false) (hc : opts.code = false) (he : opts.editor = false)
    (h : Event.httpPost m p k ∈ (main opts env).events) :
    p = pyStr opts.prompt := by
  obtain ⟨-, -, h3⟩ := main_httpPost_mem opts env m p k h
  rcases h3 with ⟨hee, -⟩ | ⟨-, rfl⟩
  · rw [he] at hee; cases hee
  · simp [composeTemplate, hs, hc]

/-- C5 witness: the plain-mode run on prompt "hi" forwards exactly
"hi". -/
theorem c5_witness : "hi" = pyStr optsPlain.prompt :=
  c5_plain_prompt_unchanged optsPlain envA "gpt-3.5-turbo" "hi" "KEY"
    rfl rfl rfl (by decide)

/-- C6 counterexample: entering the secret "k " returns "k " from the
first call but "k" from the second call, which reads the persisted
value back trimmed. -/
theorem c6_counterexample :
    (get_api_key ⟨none⟩ "k ").1 = "k " ∧
      (get_api_key (get_api_key ⟨none⟩ "k ").2.1 "k ").1 = "k" := ⟨rfl, rfl⟩

/-- C6 amended: after a first call persists the entered secret, a
second call reads the stored file without re-prompting and returns the
trimmed stored value; the two calls return the same value whenever the
entered secret carries no surrounding whitespace. -/
theorem c6_second_call_reads (s g2 : String) (h : pyStrip s = s) :
    Event.getpassPrompt ∉ (get_api_key (get_api_key ⟨none⟩ s).2.1 g2).2.2 ∧
      (get_api_key (get_api_key ⟨none⟩ s).2.1 g2).1 = pyStrip s ∧
      (get_api_key (get_api_key ⟨none⟩ s).2.1 g2).1 = (get_api_key ⟨none⟩ s).1 := by
  refine ⟨by simp [get_api_key], rfl, ?_⟩
  simp [get_api_key, h]

/-- C6 witness: for the secret "k" the second call does not re-prompt
and both calls return "k". -/
theorem c6_witness :
    pyStrip "k" = "k" ∧
      (Event.getpassPrompt ∉ (get_api_key (get_api_key ⟨none⟩ "k").2.1 "").2.2 ∧
        (get_api_key (get_api_key ⟨none⟩ "k").2.1 "").1 = pyStrip "k" ∧
        (get_api_key (get_api_key ⟨none⟩ "k").2.1 "").1 = (get_api_key ⟨none⟩ "k").1) :=
  ⟨rfl, c6_second_call_reads "k" "" rfl⟩

/-- C7: when highlight (shell or code) is set, typer_writer ignores
animate and performs a single emphasized (magenta, bold) write; when
animate is set without highlight, it emits the characters one at a
time in order followed by exactly one trailing newline. -/
theorem c7_writer_modes (text : String) (code shell animate : Bool) :
    ((shell || code) = true →
      typer_writer text code shell animate
        = [Event.secho text true (some "magenta") true]) ∧
    (animate = true → (shell || code) = false →
      typer_writer text code shell animate
        = text.toList.map (fun c => Event.secho (String.singleton c) false none false)
            ++ [Event.echo ""]) := by
  constructor
  · intro h
    simp [typer_writer, h]
  · intro ha h
    simp [typer_writer, ha, h]

/-- C7 witness: highlighted write of "hi" is a single bold magenta
write even with animate on; animated unhighlighted write of "hi" is
"h" then "i" then one newline. -/
theorem c7_witness :
    typer_writer "hi" true false true = [Event.secho "hi" true (some "magenta") true] ∧
      typer_writer "hi" false false true =
        [Event.secho "h" false none false, Event.secho "i" false none false,
          Event.echo ""] :=
  ⟨(c7_writer_modes "hi" true false true).1 rfl,
    ((c7_writer_modes "hi" false false true).2 rfl rfl).trans (by decide)⟩

/-- C8: os.system is never invoked on the response text unless the run
is in shell mode with execution requested and the confirmation
affirmed; and every run that dispatched the request reaches its
terminal state successfully. -/
theorem c8_execution_gate (opts : Options) (env : Env)
    (h1 : ¬(opts.shell = true ∧ opts.execute = true ∧ env.confirmResult = true))
    (h2 : editorCmd env ≠ respText env) :
    Event.runSystem (respText env) ∉ (main opts env).events ∧
      ((∃ m p k, Event.httpPost m p k ∈ (main opts env).events) →
        (main opts env).outcome = Except.ok ()) := by
  refine ⟨fun h => ?_, main_ok_of_httpPost opts env⟩
  rw [main_eq] at h
  split at h
  · exact absurd h (keyEvents_runSystem _ _ _)
  · split at h
    · split at h
      · simp only [List.mem_append, List.mem_singleton] at h
        rcases h with h | h
        · exact absurd h (keyEvents_runSystem _ _ _)
        · exact h2 (by injection h.symm)
      · rcases finishRun_runSystem _ _ _ _ _ _ _ h with h | h
        · simp only [List.mem_append, List.mem_singleton] at h
          rcases h with h | h
          · exact absurd h (keyEvents_runSystem _ _ _)
          · exact h2 (by injection h.symm)
        · obtain ⟨hs, hx, hc, -⟩ := gate_runSystem _ _ _ h
          exact h1 ⟨hs, hx, hc⟩
    · rcases finishRun_runSystem _ _ _ _ _ _ _ h with h | h
      · exact absurd h (keyEvents_runSystem _ _ _)
      · obtain ⟨hs, hx, hc, -⟩ := gate_runSystem _ _ _ h
        exact h1 ⟨hs, hx, hc⟩

/-- C8 witness: a shell run with execute requested but confirmation
declined never runs the response "ls -la" and ends successfully. -/
theorem c8_witness :
    Event.runSystem (respText envA) ∉
        (main { optsPlain with shell := true, execute := true } envA).events ∧
      (main { optsPlain with shell := true, execute := true } envA).outcome
        = Except.ok () :=
  ⟨(c8_execution_gate { optsPlain with shell := true, execute := true } envA
      (by decide) (by decide)).1,
    (c8_execution_gate { optsPlain with shell := true, execute := true } envA
      (by decide) (by decide)).2 ⟨"gpt-3.5-turbo",
        shellTemplate "Bash" "hi", "KEY", by decide⟩⟩

/-- C9 counterexample: with no prompt, editor off and no key file, the
run interactively prompts for and writes the credential before failing
with MissingParameter: credential resolution is a pipeline step that
precedes the parameter error. -/
theorem c9_counterexample :
    (main { optsPlain with prompt := none }
        { envA with fs := ⟨none⟩, getpassResult := "k" }).events
      = [Event.getpassPrompt, Event.writeKeyFile "k"] ∧
      (main { optsPlain with prompt := none }
          { envA with fs := ⟨none⟩, getpassResult := "k" }).outcome
        = Except.error SgptError.missingParameter := ⟨rfl, rfl⟩

/-- C9 amended: a missing prompt without editor mode fails with
MissingParameter after credential resolution but before every further
step: the trace is exactly the credential-resolution events, with no
request and no command execution. -/
theorem c9_missing_prompt (opts : Options) (env : Env)
    (hp : pyFalsy opts.prompt = true) (he : opts.editor = false) :
    (main opts env).outcome = Except.error SgptError.missingParameter ∧
      (main opts env).events = (keyStep env).2.2 ∧
      (∀ m p k, Event.httpPost m p k ∉ (main opts env).events) ∧
      (∀ c, Event.runSystem c ∉ (main opts env).events) := by
  have hv : (pyFalsy opts.prompt && !opts.editor) = true := by
    rw [hp, he]; rfl
  rw [main_eq, if_pos hv]
  exact ⟨rfl, rfl, fun m p k => keyEvents_httpPost _ _ _ _ _,
    fun c => keyEvents_runSystem _ _ _⟩

/-- C9 witness: the concrete no-prompt run fails with MissingParameter
and its trace is the credential events alone. -/
theorem c9_witness :
    (main { optsPlain with prompt := none } envA).outcome
        = Except.error SgptError.missingParameter ∧
      (main { optsPlain with prompt := none } envA).events = (keyStep envA).2.2 :=
  ⟨(c9_missing_prompt { optsPlain with prompt := none } envA rfl rfl).1,
    (c9_missing_prompt { optsPlain with prompt := none } envA rfl rfl).2.1⟩

/-- C10: when both the shell and the code flags are set, the templating
step applies the shell template alone, rendering is a single
highlighted (magenta, bold) non-animated write, and the templating
step only ever applies one of the two templates or none. -/
theorem c10_shell_wins (opts : Options) (env : Env)
    (hs : opts.shell = true) (hc : opts.code = true) :
    composeTemplate opts env
        = shellTemplate (currentShell env.platformSystem) (pyStr opts.prompt) ∧
      typer_writer (respText env) opts.code opts.shell opts.animation
        = [Event.secho (respText env) true (some "magenta") true] ∧
      ∀ (o : Options) (e : Env),
        composeTemplate o e
            = shellTemplate (currentShell e.platformSystem) (pyStr o.prompt) ∨
          composeTemplate o e = codeTemplate (pyStr o.prompt) ∨
          composeTemplate o e = pyStr o.prompt := by
  refine ⟨by simp [composeTemplate, hs], by simp [typer_writer, hs, hc], ?_⟩
  intro o e
  unfold composeTemplate
  split
  · exact Or.inl rfl
  · split
    · exact Or.inr (Or.inl rfl)
    · exact Or.inr (Or.inr rfl)

/-- C10 witness: with both flags set the prompt "hi" gets the shell
template and the response is rendered as one bold magenta write. -/
theorem c10_witness :
    composeTemplate { optsPlain with shell := true, code := true } envA
        = shellTemplate (currentShell envA.platformSystem)
            (pyStr ({ optsPlain with shell := true, code := true } : Options).prompt) ∧
      typer_writer (respText envA) true true false
        = [Event.secho (respText envA) true (some "magenta") true] :=
  ⟨(c10_shell_wins { optsPlain with shell := true, code := true } envA rfl rfl).1,
    (c10_shell_wins { optsPlain with shell := true, code := true } envA rfl rfl).2.1⟩

end Sgpt
